import Mathlib

/-!
Verification of the backup rotation tool (`backup.py`, `osutil.py`).

Shallow embedding conventions:
* Python `str` is modelled as Lean `String`; `str.endswith` is the suffix
  test on the character sequence (`endswith` below).
* Paths are absolute, canonical strings without a trailing separator, so
  `os.path.abspath` is the identity and `os.path.join dir name` is
  `dir ++ "/" ++ name` (`pjoin`).
* The file system is a finite set of `(absolute path, isDir)` pairs (`FS`);
  `os.path.exists` and `os.listdir` are read out of it.
* `datetime.datetime.now().strftime("%Y-%m-%d")` is an injected `today`
  string (an injected clock), and the interactive `getYesOrNo` prompt is an
  injected boolean `answer`, following the source's test seams.
* `osutil.execute_command` either records and applies the external command
  (`rm -rf`, `cp -al`, `rsync`) or, when `simulate` is set, prints only:
  modelled as returning the unchanged state and an empty command trace.
* Python's `sorted` on the snapshot-name strings is `List.insertionSort`
  with `≤` (any correct comparison sort; Python compares strings by code
  points, as Lean's `String` order does).  The source sorts the joined
  absolute paths; since they share the prefix `dir ++ "/"` and the date
  names contain no separator, that order coincides with the order on the
  names themselves, which is what is sorted here.
-/

namespace BackupTool

/-- `re.match("^\d\d\d\d-\d\d-\d\d$", s)` from `_analyse_backup_folder`:
ten characters, digits except for dashes at positions 4 and 7.  Purely
lexical, no calendar validation. -/
def matchesDatePattern (s : String) : Bool :=
  match s.data with
  | [y1, y2, y3, y4, d1, m1, m2, d2, a1, a2] =>
    y1.isDigit && y2.isDigit && y3.isDigit && y4.isDigit &&
    d1 == '-' && m1.isDigit && m2.isDigit && d2 == '-' &&
    a1.isDigit && a2.isDigit
  | _ => false

/-- `os.path.join dir name` for a canonical absolute `dir` and a relative
one-component `name`. -/
def pjoin (dir name : String) : String := dir ++ "/" ++ name

/-- Python `s.endswith(post)`: suffix test on the character sequence. -/
def endswith (s post : String) : Bool := post.data.isSuffixOf s.data

/-- Python's string comparison `s1 < s2`: lexicographic on code points.
(Defined structurally; proved equivalent to the list order below.) -/
def pyLt : List Char → List Char → Bool
  | [], [] => false
  | [], _ :: _ => true
  | _ :: _, [] => false
  | c :: cs, d :: ds =>
    if c < d then true else if d < c then false else pyLt cs ds

/-- Python's `s1 <= s2` on strings, the comparison `sorted` induces. -/
def pyLe (a b : String) : Bool := !(pyLt b.data a.data)

/-- One result entry of `os.listdir` paired with its `os.path.isdir` bit. -/
structure Entry where
  name : String
  isDir : Bool
deriving DecidableEq, Repr

/-- File-system view: the finite set of existing absolute paths, each
flagged as directory or not. -/
structure FS where
  paths : List (String × Bool)
deriving DecidableEq, Repr

/-- `os.path.exists`. -/
def path_exists (fs : FS) (p : String) : Bool :=
  fs.paths.any (fun e => e.1 == p)

/-- If `q` is an immediate child path of directory `p` (that is,
`q = p ++ "/" ++ n` with `n` nonempty and separator-free), return `n`. -/
def childName (p q : String) : Option String :=
  let pre := (p ++ "/").data
  if pre.isPrefixOf q.data then
    let rest := q.data.drop pre.length
    if rest.isEmpty || rest.contains '/' then none
    else some (String.mk rest)
  else none

/-- `os.listdir p` (with the `os.path.isdir` bit of each entry). -/
def os_listdir (fs : FS) (p : String) : List Entry :=
  fs.paths.filterMap (fun e => (childName p e.1).map (fun n => ⟨n, e.2⟩))

/-- An external command as built by the source: `["rm", "-rf", folder]`,
`["cp", "-al", src, tgt]`, or `["rsync", opts…, src, tgt]`. -/
inductive Cmd where
  | rm (folder : String)
  | cp (src tgt : String)
  | rsync (opts : List String) (src tgt : String)
deriving DecidableEq, Repr

/-- `q` lies in the subtree rooted at `root` (itself included). -/
def pathWithin (root q : String) : Bool :=
  q == root || (root ++ "/").data.isPrefixOf q.data

/-- Effect of `rm -rf folder`: the whole subtree disappears. -/
def FS.applyRm (fs : FS) (folder : String) : FS :=
  ⟨fs.paths.filter (fun e => !(pathWithin folder e.1))⟩

/-- Effect of `cp -al src tgt`: the subtree at `src` is replicated at
`tgt` (hard links share storage, which existence does not observe). -/
def FS.applyCp (fs : FS) (src tgt : String) : FS :=
  ⟨fs.paths ++ fs.paths.filterMap (fun e =>
    if e.1 == src then some (tgt, e.2)
    else if (src ++ "/").data.isPrefixOf e.1.data then
      some (tgt ++ String.mk (e.1.data.drop src.data.length), e.2)
    else none)⟩

/-- Drop the trailing separator the source adds for `rsync`. -/
def stripTrailingSlash (s : String) : String :=
  if endswith s "/" then String.mk s.data.dropLast else s

/-- Effect of `rsync opts src tgt`: with `-n` (dry run) nothing is written;
otherwise the target directory exists afterwards and the source's contents
are replicated beneath it (the transfer algorithm itself is the external
Mirror collaborator; only its footprint on existence is modelled). -/
def FS.applyRsync (fs : FS) (opts : List String) (src tgt : String) : FS :=
  if opts.contains "-n" then fs
  else
    let s := stripTrailingSlash src
    let t := stripTrailingSlash tgt
    let withTarget := if path_exists fs t then fs.paths else (t, true) :: fs.paths
    ⟨withTarget ++ fs.paths.filterMap (fun e =>
      if (s ++ "/").data.isPrefixOf e.1.data then
        some (t ++ String.mk (e.1.data.drop s.data.length), e.2)
      else none)⟩

/-- Dispatch a command's file-system effect. -/
def FS.apply (fs : FS) : Cmd → FS
  | .rm folder => fs.applyRm folder
  | .cp src tgt => fs.applyCp src tgt
  | .rsync opts src tgt => fs.applyRsync opts src tgt

/-- `osutil.execute_command`: in simulate mode the command string is only
printed and nothing runs; otherwise the external process runs (modelled by
its effect) and is recorded in the executed-command trace. -/
def execute_command (c : Cmd) (simulate : Bool) (fs : FS) : FS × List Cmd :=
  if simulate then (fs, []) else (fs.apply c, [c])

def MODE_SYNC : String := "synchronize"
def MODE_INCR : String := "incremental"

/-- `BackupProfile` from the source (defaults as in `__init__`). -/
structure BackupProfile where
  name : String := "Undefined"
  description : Option String := none
  source : String
  target : String
  mode : String := MODE_SYNC
  options : List String := []
  backupCount : Nat := 3
deriving DecidableEq, Repr

/-- The argparse options the core consumes. -/
structure Args where
  simulate : Bool := false
  verbose : Bool := false
  delete : Bool := false
  restoreDate : Option String := none
deriving DecidableEq, Repr

/-- The snapshot-name set `S` that `_analyse_backup_folder` works on:
names of subdirectories of `dir` (deduplicated, as the source collects
absolute paths into a Python `set`) whose base name matches the date
pattern. -/
def snapshotNames (listing : List Entry) : List String :=
  (((listing.filter (fun e => e.isDir)).map (fun e => e.name)).dedup).filter
    matchesDatePattern

/-- `_analyse_backup_folder(dir, backupCount)`: returns
`(toUse, toCopy, toDelete)`.  The listing of `dir` and `today` are the
injected collaborator inputs (directory lister and clock). -/
def analyse_backup_folder (dir today : String) (listing : List Entry)
    (backupCount : Nat) : String × Option String × Option String :=
  let toUse := pjoin dir today
  let snaps := snapshotNames listing
  let dirs :=
    (List.insertionSort (fun a b : String => pyLe a b = true) snaps).reverse
  if h : dirs = [] then (toUse, none, none)
  else
    let toCopy := pjoin dir (dirs.head h)
    if toCopy = toUse then (toUse, none, none)
    else if backupCount ≤ dirs.length then
      (toUse, some toCopy, some (pjoin dir (dirs.getLast h)))
    else (toUse, some toCopy, none)

/-- The errors the orchestrator raises (`raise Exception(...)` sites). -/
inductive BackupError where
  | sourceMissing (p : String)
  | sourceEmpty (p : String)
  | targetMissing (p : String)
  | notFound (p : String)
deriving DecidableEq, Repr

/-- `_check_pre_conditions(source, target)`. -/
def check_pre_conditions (fs : FS) (source target : String) :
    Option BackupError :=
  if !(path_exists fs source) then some (.sourceMissing source)
  else if (os_listdir fs source).length = 0 then some (.sourceEmpty source)
  else if !(path_exists fs target) then some (.targetMissing target)
  else none

/-- `_remove_incremental_backup(folder, args)`. -/
def remove_incremental_backup (folder : String) (args : Args) (fs : FS) :
    FS × List Cmd :=
  if !(path_exists fs folder) then (fs, [])
  else execute_command (.rm folder) args.simulate fs

/-- `_copy_incremental_backup(source, target, args)` (paths are canonical,
so the `os.path.abspath` comparison is plain equality). -/
def copy_incremental_backup (source target : String) (args : Args)
    (fs : FS) : FS × List Cmd :=
  if !(path_exists fs source) then (fs, [])
  else if source = target then (fs, [])
  else execute_command (.cp source target) args.simulate fs

/-- The rsync option list `_sync_dirs` builds before the two paths. -/
def rsync_options (profile : BackupProfile) (args : Args) : List String :=
  ((if profile.options.length != 0 then profile.options else ["-avi"]) ++
    ["--progress"]) ++
   ((if args.delete then ["--delete"] else []) ++
    (if args.simulate then ["-n"] else []))

/-- The trailing-separator normalization of `_sync_dirs`
(`if not source.endswith("/"): source += "/"`). -/
def ensureSlash (s : String) : String :=
  if endswith s "/" then s else s ++ "/"

/-- `_sync_dirs(profile, source, target, args, prompt)`: normalizes the
trailing separators, optionally asks for confirmation, and runs rsync (the
rsync call itself is never passed `simulate`, the `-n` flag carries dry-run
into the process instead). -/
def sync_dirs (profile : BackupProfile) (source target : String)
    (args : Args) (prompt : Bool) (answer : Bool) (fs : FS) :
    FS × List Cmd :=
  let source := ensureSlash source
  let target := ensureSlash target
  if prompt && !args.simulate && !answer then (fs, [])
  else execute_command (.rsync (rsync_options profile args) source target)
    false fs

/-- The resolved Mirror target of the incremental backup path
(`target = toUse; if args.simulate and toCopy is not None: target = toCopy`). -/
def resolved_backup_target (simulate : Bool) (toUse : String)
    (toCopy : Option String) : String :=
  match toCopy with
  | some c => if simulate then c else toUse
  | none => toUse

/-- `backup(profile, args)`: returns the final file-system state, the
trace of executed external commands, and the error, if any (a raised
exception). -/
def backup (profile : BackupProfile) (args : Args) (today : String)
    (fs : FS) : FS × List Cmd × Option BackupError :=
  let source := profile.source
  let target := profile.target
  match check_pre_conditions fs source target with
  | some e => (fs, [], some e)
  | none =>
    if profile.mode = MODE_INCR then
      let a := analyse_backup_folder target today (os_listdir fs target)
        profile.backupCount
      let toUse := a.1
      let toCopy := a.2.1
      let toDelete := a.2.2
      let r1 := match toDelete with
        | some d => remove_incremental_backup d args fs
        | none => (fs, [])
      let r2 := match toCopy with
        | some c => copy_incremental_backup c toUse args r1.1
        | none => (r1.1, [])
      let mirrorTarget := resolved_backup_target args.simulate toUse toCopy
      let r3 := sync_dirs profile source mirrorTarget args false true r2.1
      (r3.1, (r1.2 ++ r2.2) ++ r3.2, none)
    else
      let r3 := sync_dirs profile source target args false true fs
      (r3.1, r3.2, none)

/-- `restore(profile, args)` (source and target switched; the
confirmation prompt's outcome is the injected `answer`). -/
def restore (profile : BackupProfile) (args : Args) (today : String)
    (answer : Bool) (fs : FS) : FS × List Cmd × Option BackupError :=
  let target := profile.source
  let source := profile.target
  match check_pre_conditions fs source target with
  | some e => (fs, [], some e)
  | none =>
    if profile.mode = MODE_INCR then
      let source1 := match args.restoreDate with
        | some d => pjoin source d
        | none =>
          let a := analyse_backup_folder source today (os_listdir fs source)
            profile.backupCount
          match a.2.1 with
          | none => a.1
          | some c => c
      if !(path_exists fs source1) then (fs, [], some (.notFound source1))
      else
        let r := sync_dirs profile source1 target args true answer fs
        (r.1, r.2, none)
    else
      let r := sync_dirs profile source target args true answer fs
      (r.1, r.2, none)

/-- The per-profile action loop of `main` (lines 400–411): the `for` loop
body calls `restore` or `backup`; a raised exception escapes the loop and
is caught (and printed) by the single `try/except` wrapping all of `main`.
Returns the profiles whose processing was started and the error that ended
the batch, if any. -/
def process_profiles (run : BackupProfile → Option BackupError) :
    List BackupProfile → List BackupProfile × Option BackupError
  | [] => ([], none)
  | p :: ps =>
    match run p with
    | none =>
      let r := process_profiles run ps
      (p :: r.1, r.2)
    | some e => ([p], some e)

/-! ### General helper lemmas -/

theorem dedup_filter {α : Type} [DecidableEq α] (p : α → Bool) :
    ∀ l : List α, (l.filter p).dedup = l.dedup.filter p := by
  intro l
  induction l with
  | nil => simp
  | cons a l ih =>
    by_cases hp : p a
    · rw [List.filter_cons_of_pos hp]
      by_cases hm : a ∈ l
      · rw [List.dedup_cons_of_mem (List.mem_filter.mpr ⟨hm, hp⟩),
          List.dedup_cons_of_mem hm, ih]
      · rw [List.dedup_cons_of_not_mem (fun hc => hm (List.mem_filter.mp hc).1),
          List.dedup_cons_of_not_mem hm, List.filter_cons_of_pos hp, ih]
    · rw [List.filter_cons_of_neg hp]
      by_cases hm : a ∈ l
      · rw [List.dedup_cons_of_mem hm, ih]
      · rw [List.dedup_cons_of_not_mem hm, List.filter_cons_of_neg hp, ih]

theorem pyLt_iff_lex :
    ∀ (a b : List Char), pyLt a b = true ↔ List.Lex (· < ·) a b
  | [], [] => iff_of_false (by simp [pyLt]) (fun h => nomatch h)
  | [], b :: bs => iff_of_true (by simp [pyLt]) List.Lex.nil
  | _ :: _, [] => iff_of_false (by simp [pyLt]) (fun h => nomatch h)
  | a :: as, b :: bs => by
    by_cases h1 : a < b
    · exact iff_of_true (by simp [pyLt, h1]) (List.Lex.rel h1)
    · by_cases h2 : b < a
      · refine iff_of_false (by simp [pyLt, h1, h2]) ?_
        intro h
        cases h with
        | cons h' => exact lt_irrefl _ h2
        | rel h' => exact h1 h'
      · have hab : a = b := le_antisymm (le_of_not_lt h2) (le_of_not_lt h1)
        subst hab
        have ih := pyLt_iff_lex as bs
        constructor
        · intro h
          exact List.Lex.cons (ih.mp (by simpa [pyLt, h1] using h))
        · intro h
          have h3 := List.Lex.cons_iff.mp h
          simpa [pyLt, h1] using ih.mpr h3

/-- The model comparator agrees with the string order: `pyLe` is `≤`. -/
theorem pyLe_iff (s t : String) : pyLe s t = true ↔ s ≤ t := by
  have h1 : (pyLe s t = true) ↔ ¬(pyLt t.data s.data = true) := by
    unfold pyLe
    cases pyLt t.data s.data <;> simp
  rw [h1, pyLt_iff_lex, ← not_lt]
  exact not_congr String.lt_iff_toList_lt.symm

instance : IsTotal String (fun a b : String => pyLe a b = true) :=
  ⟨fun a b => by
    rw [pyLe_iff, pyLe_iff]
    exact le_total a b⟩

instance : IsTrans String (fun a b : String => pyLe a b = true) :=
  ⟨fun a b c hab hbc =>
    (pyLe_iff a c).mpr (le_trans ((pyLe_iff a b).mp hab) ((pyLe_iff b c).mp hbc))⟩

theorem sorted_head?_min {l : List String} {a : String}
    (hs : l.Sorted (fun a b : String => pyLe a b = true))
    (ha : l.head? = some a) :
    ∀ x ∈ l, pyLe a x = true := by
  cases l with
  | nil => simp at ha
  | cons b t =>
    rw [List.head?_cons, Option.some.injEq] at ha
    subst ha
    intro x hx
    rcases List.mem_cons.mp hx with h | h
    · subst h; exact (pyLe_iff _ _).mpr le_rfl
    · exact List.rel_of_sorted_cons hs x h

theorem sorted_getLast?_max {l : List String} {a : String}
    (hs : l.Sorted (fun a b : String => pyLe a b = true))
    (ha : l.getLast? = some a) :
    ∀ x ∈ l, pyLe x a = true := by
  induction l with
  | nil => simp at ha
  | cons b t ih =>
    cases t with
    | nil =>
      simp only [List.getLast?_singleton, Option.some.injEq] at ha
      subst ha
      intro x hx
      rcases List.mem_singleton.mp hx with h
      subst h; exact (pyLe_iff _ _).mpr le_rfl
    | cons c t' =>
      rw [List.getLast?_cons_cons] at ha
      intro x hx
      rcases List.mem_cons.mp hx with h | h
      · subst h
        exact List.rel_of_sorted_cons hs a (List.mem_of_getLast?_eq_some ha)
      · exact ih hs.of_cons ha x h

theorem pjoin_inj {dir a b : String} : pjoin dir a = pjoin dir b ↔ a = b := by
  constructor
  · intro h
    have hdata : (pjoin dir a).data = (pjoin dir b).data := by rw [h]
    simp only [pjoin, String.data_append, List.append_cancel_left_eq] at hdata
    cases a; cases b; exact congrArg String.mk hdata
  · intro h; rw [h]

theorem endswith_append_slash (s : String) : endswith (s ++ "/") "/" = true := by
  simp only [endswith, String.data_append, List.isSuffixOf_iff_suffix]
  exact List.suffix_append _ _

theorem endswith_ensureSlash (s : String) : endswith (ensureSlash s) "/" = true := by
  unfold ensureSlash
  by_cases h : endswith s "/"
  · simp [h]
  · simp [h, endswith_append_slash]

theorem childName_eq_some {p q n : String} (h : childName p q = some n) :
    q = pjoin p n := by
  simp only [childName] at h
  split at h
  · split at h
    · exact absurd h (by simp)
    · rename_i hpre _
      rw [Option.some.injEq] at h
      have hpfx : (p ++ "/").data <+: q.data := by simpa using hpre
      obtain ⟨t, ht⟩ := hpfx
      have hdrop : q.data.drop (p ++ "/").data.length = t := by
        rw [← ht]; exact List.drop_left _ _
      rw [hdrop] at h
      apply String.ext
      rw [← ht, ← h]
      simp [pjoin, String.data_append]
  · exact absurd h (by simp)

theorem path_exists_applyRm_self (fs : FS) (folder : String) :
    path_exists (fs.applyRm folder) folder = false := by
  simp only [path_exists, FS.applyRm, List.any_filter, List.any_eq_false]
  intro e _
  simp only [Bool.and_eq_true, Bool.not_eq_true', not_and]
  intro hkeep
  rw [pathWithin] at hkeep
  simp only [Bool.or_eq_false_iff] at hkeep
  simp [hkeep.1]

theorem path_exists_of_listdir_mem {fs : FS} {dir : String} {ent : Entry}
    (h : ent ∈ os_listdir fs dir) :
    path_exists fs (pjoin dir ent.name) = true := by
  unfold os_listdir at h
  rw [List.mem_filterMap] at h
  obtain ⟨e, he, heq⟩ := h
  cases hc : childName dir e.1 with
  | none => rw [hc] at heq; simp at heq
  | some n =>
    rw [hc] at heq
    have heq2 : (⟨n, e.2⟩ : Entry) = ent := Option.some.inj heq
    have hname : ent.name = n := by rw [← heq2]
    have hpath : e.1 = pjoin dir n := childName_eq_some hc
    simp only [path_exists, List.any_eq_true]
    exact ⟨e, he, by simp [hpath, hname]⟩

/-! ### Command-trace lemmas for the orchestration helpers -/

/-- A command addressed to the Mirror collaborator carries trailing
separators on both paths; the rotation commands are unconstrained. -/
def mirror_paths_slashed : Cmd → Prop
  | .rsync _ s t => endswith s "/" = true ∧ endswith t "/" = true
  | _ => True

/-- The Mirror (rsync) commands of a trace. -/
def isMirrorCmd : Cmd → Bool
  | .rsync _ _ _ => true
  | _ => false

theorem remove_trace (d : String) (args : Args) (fs : FS) :
    (remove_incremental_backup d args fs).2 = [] ∨
      (remove_incremental_backup d args fs).2 = [.rm d] := by
  unfold remove_incremental_backup execute_command
  split
  · exact Or.inl rfl
  · split
    · exact Or.inl rfl
    · exact Or.inr rfl

theorem copy_trace (c u : String) (args : Args) (fs : FS) :
    (copy_incremental_backup c u args fs).2 = [] ∨
      (copy_incremental_backup c u args fs).2 = [.cp c u] := by
  unfold copy_incremental_backup execute_command
  split
  · exact Or.inl rfl
  · split
    · exact Or.inl rfl
    · split
      · exact Or.inl rfl
      · exact Or.inr rfl

theorem remove_simulate (d : String) (args : Args) (fs : FS)
    (h : args.simulate = true) :
    remove_incremental_backup d args fs = (fs, []) := by
  unfold remove_incremental_backup execute_command
  rw [h]
  split
  · rfl
  · rfl

theorem copy_simulate (c u : String) (args : Args) (fs : FS)
    (h : args.simulate = true) :
    copy_incremental_backup c u args fs = (fs, []) := by
  unfold copy_incremental_backup execute_command
  rw [h]
  split
  · rfl
  · split
    · rfl
    · rfl

theorem sync_dirs_no_prompt (profile : BackupProfile) (source target : String)
    (args : Args) (answer : Bool) (fs : FS) :
    sync_dirs profile source target args false answer fs =
      (fs.apply (.rsync (rsync_options profile args)
        (ensureSlash source) (ensureSlash target)),
       [.rsync (rsync_options profile args)
        (ensureSlash source) (ensureSlash target)]) := by
  rfl

theorem sync_dirs_declined (profile : BackupProfile) (source target : String)
    (args : Args) (fs : FS) (h : args.simulate = false) :
    sync_dirs profile source target args true false fs = (fs, []) := by
  unfold sync_dirs
  rw [h]
  rfl

/-- With dry-run active the recorded rsync command carries `-n`, and the
modelled process writes nothing. -/
theorem apply_rsync_simulate (fs : FS) (profile : BackupProfile)
    (args : Args) (s t : String) (h : args.simulate = true) :
    fs.apply (.rsync (rsync_options profile args) s t) = fs := by
  have hmem : (rsync_options profile args).contains "-n" = true := by
    rw [List.contains_eq_any_beq]
    simp only [List.any_eq_true]
    exact ⟨"-n", by simp [rsync_options, h], by simp⟩
  simp only [FS.apply, FS.applyRsync, hmem, if_true]

theorem mem_of_head?_eq_some {α : Type} {l : List α} {a : α}
    (h : l.head? = some a) : a ∈ l := by
  cases l with
  | nil => simp at h
  | cons b t =>
    rw [List.head?_cons, Option.some.injEq] at h
    subst h
    exact List.mem_cons_self _ _

/-- Only the directory entries whose name matches the date pattern feed
the snapshot set. -/
theorem snapshotNames_filter_matching (listing : List Entry) :
    snapshotNames
        (listing.filter (fun e => e.isDir && matchesDatePattern e.name)) =
      snapshotNames listing := by
  unfold snapshotNames
  have hA : (listing.filter (fun e => e.isDir && matchesDatePattern e.name)).filter
      (fun e => e.isDir) =
      listing.filter (fun e => e.isDir && matchesDatePattern e.name) := by
    rw [List.filter_eq_self]
    intro a ha
    exact Bool.and_elim_left ((List.mem_filter.mp ha).2)
  have hB : listing.filter (fun e => e.isDir && matchesDatePattern e.name) =
      (listing.filter (fun e => e.isDir)).filter
        (fun e => matchesDatePattern e.name) := by
    rw [List.filter_filter]
    apply List.filter_congr
    intro a _
    exact Bool.and_comm _ _
  rw [hA, hB]
  have hC : (fun e : Entry => matchesDatePattern e.name) =
      matchesDatePattern ∘ (fun e : Entry => e.name) := rfl
  rw [hC, ← List.filter_map, dedup_filter, List.filter_filter]
  apply List.filter_congr
  intro a _
  exact Bool.and_self _

/-- C1: for every retention count `R ≥ 1` and snapshot set, a single
Analyzer call marks at most one directory for deletion (`toDelete` is a
single optional path by construction), the marked directory is
`dir/<n>` for the lexicographically smallest matching snapshot name `n`
(hence the lexicographically smallest member of the snapshot-path set,
all paths sharing the prefix `dir ++ "/"`), and a candidate exists only
when the snapshot count is at least `R`. -/
theorem analyzer_deletes_at_most_oldest (dir today : String)
    (listing : List Entry) (R : Nat) (_hR : 1 ≤ R) :
    ∀ d, (analyse_backup_folder dir today listing R).2.2 = some d →
      ∃ n, d = pjoin dir n ∧ n ∈ snapshotNames listing ∧
        (∀ m ∈ snapshotNames listing, n ≤ m) ∧
        R ≤ (snapshotNames listing).length := by
  intro d hd
  simp only [analyse_backup_folder] at hd
  split at hd
  · simp at hd
  · rename_i h
    split at hd
    · simp at hd
    · split at hd
      · rename_i hne hlen
        simp only [Option.some.injEq] at hd
        have hsort := List.sorted_insertionSort
          (fun a b : String => pyLe a b = true) (snapshotNames listing)
        have hperm := List.perm_insertionSort
          (fun a b : String => pyLe a b = true) (snapshotNames listing)
        refine ⟨(List.insertionSort (fun a b : String => pyLe a b = true)
          (snapshotNames listing)).reverse.getLast h, hd.symm, ?_, ?_, ?_⟩
        · have h1 : (List.insertionSort (fun a b : String => pyLe a b = true)
              (snapshotNames listing)).head? =
              some ((List.insertionSort (fun a b : String => pyLe a b = true)
                (snapshotNames listing)).reverse.getLast h) := by
            rw [← List.getLast?_reverse]
            exact List.getLast?_eq_getLast _ h
          exact hperm.mem_iff.mp (mem_of_head?_eq_some h1)
        · intro m hm
          have h1 : (List.insertionSort (fun a b : String => pyLe a b = true)
              (snapshotNames listing)).head? =
              some ((List.insertionSort (fun a b : String => pyLe a b = true)
                (snapshotNames listing)).reverse.getLast h) := by
            rw [← List.getLast?_reverse]
            exact List.getLast?_eq_getLast _ h
          exact (pyLe_iff _ _).mp (sorted_head?_min hsort h1 m (hperm.mem_iff.mpr hm))
        · rw [List.length_reverse, hperm.length_eq] at hlen
          exact hlen
      · simp at hd

/-- C2: when the newest matching snapshot name is today's date, the
Analyzer reports nothing to clone (same-day idempotent re-run),
whatever the size of the snapshot set. -/
theorem analyzer_same_day_no_clone (dir today : String)
    (listing : List Entry) (R : Nat)
    (hmem : today ∈ snapshotNames listing)
    (hmax : ∀ x ∈ snapshotNames listing, x ≤ today) :
    (analyse_backup_folder dir today listing R).2.1 = none := by
  simp only [analyse_backup_folder]
  split
  · rfl
  · rename_i h
    have hsort := List.sorted_insertionSort
      (fun a b : String => pyLe a b = true) (snapshotNames listing)
    have hperm := List.perm_insertionSort
      (fun a b : String => pyLe a b = true) (snapshotNames listing)
    have h1 : (List.insertionSort (fun a b : String => pyLe a b = true)
        (snapshotNames listing)).getLast? =
        some ((List.insertionSort (fun a b : String => pyLe a b = true)
          (snapshotNames listing)).reverse.head h) := by
      rw [← List.head?_reverse]
      exact List.head?_eq_head h
    have hhead : (List.insertionSort (fun a b : String => pyLe a b = true)
        (snapshotNames listing)).reverse.head h = today := by
      apply le_antisymm
      · exact hmax _ (hperm.mem_iff.mp (List.mem_of_getLast?_eq_some h1))
      · exact (pyLe_iff _ _).mp
          (sorted_getLast?_max hsort h1 today (hperm.mem_iff.mpr hmem))
    split
    · rfl
    · rename_i hne
      exact absurd (by rw [hhead]) hne

/-- C7: entries that are not directories or whose names do not match the
lexical pattern `^\d{4}-\d{2}-\d{2}$` are ignored by the Analyzer (its
output only depends on the matching directory entries, with no calendar
validation beyond the pattern), and when no entry matches it returns
`use = dir/today` with null `cloneSource` and `deleteCandidate`. -/
theorem analyzer_ignores_non_snapshots (dir today : String)
    (listing : List Entry) (R : Nat) :
    (analyse_backup_folder dir today
        (listing.filter (fun e => e.isDir && matchesDatePattern e.name)) R =
      analyse_backup_folder dir today listing R)
    ∧ ((∀ e ∈ listing, e.isDir = true → matchesDatePattern e.name = false) →
        analyse_backup_folder dir today listing R =
          (pjoin dir today, none, none)) := by
  constructor
  · unfold analyse_backup_folder
    rw [snapshotNames_filter_matching]
  · intro hnone
    have hsnap : snapshotNames listing = [] := by
      unfold snapshotNames
      rw [List.filter_eq_nil_iff]
      intro a ha
      rw [List.mem_dedup] at ha
      obtain ⟨e, he, hname⟩ := List.mem_map.mp ha
      have hdir := List.mem_filter.mp he
      rw [← hname]
      simp [hnone e hdir.1 hdir.2]
    unfold analyse_backup_folder
    rw [hsnap]
    rfl

/-! ### Precondition checking (C5) -/

theorem backup_error_cases (profile : BackupProfile) (args : Args)
    (today : String) (fs : FS) :
    (backup profile args today fs).2.2 =
      check_pre_conditions fs profile.source profile.target ∧
    (∀ e, check_pre_conditions fs profile.source profile.target = some e →
      backup profile args today fs = (fs, [], some e)) := by
  constructor
  · simp only [backup]
    split
    · rename_i e he; rw [he]
    · rename_i he; rw [he]; split <;> rfl
  · intro e he
    simp only [backup, he]

/-- C5: `backup` raises its precondition failures exactly for: source
missing, then source empty, then target missing — checked in that order,
with no check of target emptiness — and when it raises one, no external
command has run and the file system is untouched. -/
theorem backup_precondition_spec (profile : BackupProfile) (args : Args)
    (today : String) (fs : FS) :
    ((backup profile args today fs).2.2 =
        some (.sourceMissing profile.source) ↔
      path_exists fs profile.source = false) ∧
    ((backup profile args today fs).2.2 =
        some (.sourceEmpty profile.source) ↔
      (path_exists fs profile.source = true ∧
       os_listdir fs profile.source = [])) ∧
    ((backup profile args today fs).2.2 =
        some (.targetMissing profile.target) ↔
      (path_exists fs profile.source = true ∧
       os_listdir fs profile.source ≠ [] ∧
       path_exists fs profile.target = false)) ∧
    ((backup profile args today fs).2.2 = none ↔
      (path_exists fs profile.source = true ∧
       os_listdir fs profile.source ≠ [] ∧
       path_exists fs profile.target = true)) ∧
    (∀ e, (backup profile args today fs).2.2 = some e →
      backup profile args today fs = (fs, [], some e)) := by
  obtain ⟨h1, h2⟩ := backup_error_cases profile args today fs
  rw [h1]
  refine ⟨?_, ?_, ?_, ?_, ?_⟩
  · by_cases hs : path_exists fs profile.source <;>
      by_cases he : (os_listdir fs profile.source).length = 0 <;>
      by_cases ht : path_exists fs profile.target <;>
      simp [check_pre_conditions, hs, he, ht]
  · by_cases hs : path_exists fs profile.source <;>
      by_cases he : (os_listdir fs profile.source).length = 0 <;>
      by_cases ht : path_exists fs profile.target <;>
      simp [check_pre_conditions, hs, he, ht, ← List.length_eq_zero]
  · by_cases hs : path_exists fs profile.source <;>
      by_cases he : (os_listdir fs profile.source).length = 0 <;>
      by_cases ht : path_exists fs profile.target <;>
      simp [check_pre_conditions, hs, he, ht, ← List.length_eq_zero]
  · by_cases hs : path_exists fs profile.source <;>
      by_cases he : (os_listdir fs profile.source).length = 0 <;>
      by_cases ht : path_exists fs profile.target <;>
      simp [check_pre_conditions, hs, he, ht, ← List.length_eq_zero]
  · intro e he
    exact h2 e (h1 ▸ he)

/-! ### The incremental backup body (C4, C9) -/

theorem backup_incr_unfold (profile : BackupProfile) (args : Args)
    (today : String) (fs : FS)
    (hmode : profile.mode = MODE_INCR)
    (hpre : check_pre_conditions fs profile.source profile.target = none) :
    backup profile args today fs =
      (let a := analyse_backup_folder profile.target today
        (os_listdir fs profile.target) profile.backupCount
       let r1 := match a.2.2 with
         | some d => remove_incremental_backup d args fs
         | none => (fs, [])
       let r2 := match a.2.1 with
         | some c => copy_incremental_backup c a.1 args r1.1
         | none => (r1.1, [])
       let r3 := sync_dirs profile profile.source
         (resolved_backup_target args.simulate a.1 a.2.1) args false true r2.1
       (r3.1, (r1.2 ++ r2.2) ++ r3.2, none)) := by
  simp only [backup, hpre, hmode, if_true]

/-- C4: in incremental mode the Mirror step is invoked exactly once, on
the resolved target — `use`, except that with simulate on and a clone
source present the resolved target is the clone source itself — and with
simulate on the Delete and Clone commands are not executed at all and the
file system is untouched. -/
theorem backup_resolved_mirror_target (profile : BackupProfile) (args : Args)
    (today : String) (fs : FS)
    (hmode : profile.mode = MODE_INCR)
    (hpre : check_pre_conditions fs profile.source profile.target = none) :
    ((backup profile args today fs).2.1.filter isMirrorCmd =
      [Cmd.rsync (rsync_options profile args)
        (ensureSlash profile.source)
        (ensureSlash (resolved_backup_target args.simulate
          (analyse_backup_folder profile.target today
            (os_listdir fs profile.target) profile.backupCount).1
          (analyse_backup_folder profile.target today
            (os_listdir fs profile.target) profile.backupCount).2.1))]) ∧
    (args.simulate = true →
      backup profile args today fs =
        (fs, [Cmd.rsync (rsync_options profile args)
          (ensureSlash profile.source)
          (ensureSlash (resolved_backup_target args.simulate
            (analyse_backup_folder profile.target today
              (os_listdir fs profile.target) profile.backupCount).1
            (analyse_backup_folder profile.target today
              (os_listdir fs profile.target) profile.backupCount).2.1))],
         none)) := by
  rw [backup_incr_unfold profile args today fs hmode hpre]
  constructor
  · cases hdel : (analyse_backup_folder profile.target today
        (os_listdir fs profile.target) profile.backupCount).2.2 with
    | none =>
      cases hcopy : (analyse_backup_folder profile.target today
          (os_listdir fs profile.target) profile.backupCount).2.1 with
      | none =>
        simp [hdel, hcopy, sync_dirs_no_prompt, isMirrorCmd]
      | some c =>
        rcases copy_trace c (analyse_backup_folder profile.target today
            (os_listdir fs profile.target) profile.backupCount).1 args fs
          with h | h <;>
          simp [hdel, hcopy, h, sync_dirs_no_prompt, isMirrorCmd]
    | some d =>
      cases hcopy : (analyse_backup_folder profile.target today
          (os_listdir fs profile.target) profile.backupCount).2.1 with
      | none =>
        rcases remove_trace d args fs with h | h <;>
          simp [hdel, hcopy, h, sync_dirs_no_prompt, isMirrorCmd]
      | some c =>
        rcases remove_trace d args fs with h | h <;>
          rcases copy_trace c (analyse_backup_folder profile.target today
              (os_listdir fs profile.target) profile.backupCount).1 args
            (remove_incremental_backup d args fs).1 with h2 | h2 <;>
          simp [hdel, hcopy, h, h2, sync_dirs_no_prompt, isMirrorCmd]
  · intro hsim
    cases hdel : (analyse_backup_folder profile.target today
        (os_listdir fs profile.target) profile.backupCount).2.2 with
    | none =>
      cases hcopy : (analyse_backup_folder profile.target today
          (os_listdir fs profile.target) profile.backupCount).2.1 with
      | none =>
        simp [hdel, hcopy, sync_dirs_no_prompt,
          apply_rsync_simulate fs profile args _ _ hsim]
      | some c =>
        simp [hdel, hcopy, sync_dirs_no_prompt,
          remove_simulate _ args _ hsim, copy_simulate _ _ args _ hsim,
          apply_rsync_simulate fs profile args _ _ hsim]
    | some d =>
      cases hcopy : (analyse_backup_folder profile.target today
          (os_listdir fs profile.target) profile.backupCount).2.1 with
      | none =>
        simp [hdel, hcopy, sync_dirs_no_prompt,
          remove_simulate _ args _ hsim,
          apply_rsync_simulate fs profile args _ _ hsim]
      | some c =>
        simp [hdel, hcopy, sync_dirs_no_prompt,
          remove_simulate _ args _ hsim, copy_simulate _ _ args _ hsim,
          apply_rsync_simulate fs profile args _ _ hsim]

/-! ### The incremental restore body (C6, C10) -/

theorem restore_incr_unfold (profile : BackupProfile) (args : Args)
    (today : String) (answer : Bool) (fs : FS)
    (hmode : profile.mode = MODE_INCR)
    (hpre : check_pre_conditions fs profile.target profile.source = none) :
    restore profile args today answer fs =
      (let source1 := match args.restoreDate with
        | some d => pjoin profile.target d
        | none =>
          match (analyse_backup_folder profile.target today
              (os_listdir fs profile.target) profile.backupCount).2.1 with
          | none => (analyse_backup_folder profile.target today
              (os_listdir fs profile.target) profile.backupCount).1
          | some c => c
       if !(path_exists fs source1) then (fs, [], some (.notFound source1))
       else
         let r := sync_dirs profile source1 profile.source args true answer fs
         (r.1, r.2, none)) := by
  simp only [restore, hpre, hmode, if_true]

/-- C6: in incremental restore, the read-side source is
`target/<restoreDate>` when a restore date is supplied (a literal join),
otherwise the Analyzer's clone source when present, otherwise `use`
(today's folder); the run then fails with the not-found error exactly
when that resolved source does not exist, and in that case nothing has
run and the file system is untouched. -/
theorem restore_resolves_and_notfound (profile : BackupProfile)
    (args : Args) (today : String) (answer : Bool) (fs : FS)
    (hmode : profile.mode = MODE_INCR)
    (hpre : check_pre_conditions fs profile.target profile.source = none)
    (src1 : String)
    (hsrc : src1 = match args.restoreDate with
      | some d => pjoin profile.target d
      | none =>
        match (analyse_backup_folder profile.target today
            (os_listdir fs profile.target) profile.backupCount).2.1 with
        | none => (analyse_backup_folder profile.target today
            (os_listdir fs profile.target) profile.backupCount).1
        | some c => c) :
    ((restore profile args today answer fs).2.2 =
        some (.notFound src1) ↔ path_exists fs src1 = false) ∧
    (path_exists fs src1 = false →
      restore profile args today answer fs =
        (fs, [], some (.notFound src1))) := by
  rw [restore_incr_unfold profile args today answer fs hmode hpre, ← hsrc]
  by_cases hex : path_exists fs src1
  · simp [hex]
  · simp [hex]

/-! ### Trailing separators on Mirror paths (C8) -/

theorem sync_dirs_trace_slashed (profile : BackupProfile)
    (source target : String) (args : Args) (prompt answer : Bool)
    (fs : FS) :
    ∀ c ∈ (sync_dirs profile source target args prompt answer fs).2,
      mirror_paths_slashed c := by
  intro c hc
  simp only [sync_dirs, execute_command] at hc
  split at hc
  · simp at hc
  · simp only [Bool.false_eq_true, if_false, List.mem_singleton] at hc
    subst hc
    exact ⟨endswith_ensureSlash _, endswith_ensureSlash _⟩

theorem backup_trace_slashed (profile : BackupProfile) (args : Args)
    (today : String) (fs : FS) :
    ∀ c ∈ (backup profile args today fs).2.1, mirror_paths_slashed c := by
  intro c hc
  simp only [backup] at hc
  split at hc
  · simp at hc
  · split at hc
    · split at hc <;> split at hc <;>
        · simp only [List.mem_append] at hc
          rcases hc with (hc | hc) | hc
          · first
            | (rcases remove_trace _ args fs with h | h <;> rw [h] at hc <;>
                simp at hc <;> (try subst hc) <;> trivial)
            | simp at hc
          · first
            | (rcases copy_trace _ _ args _ with h | h <;> rw [h] at hc <;>
                simp at hc <;> (try subst hc) <;> trivial)
            | simp at hc
          · exact sync_dirs_trace_slashed _ _ _ _ _ _ _ c hc
    · exact sync_dirs_trace_slashed _ _ _ _ _ _ _ c hc

theorem restore_trace_slashed (profile : BackupProfile) (args : Args)
    (today : String) (answer : Bool) (fs : FS) :
    ∀ c ∈ (restore profile args today answer fs).2.1,
      mirror_paths_slashed c := by
  intro c hc
  simp only [restore] at hc
  split at hc
  · simp at hc
  · split at hc
    · split at hc
      · simp at hc
      · exact sync_dirs_trace_slashed _ _ _ _ _ _ _ c hc
    · exact sync_dirs_trace_slashed _ _ _ _ _ _ _ c hc

/-- C8: every command handed to the Mirror collaborator by a backup or a
restore run carries a trailing separator on both its source and its
target path. -/
theorem mirror_paths_trailing_separator (profile : BackupProfile)
    (args : Args) (today : String) (answer : Bool) (fs : FS) :
    (∀ c ∈ (backup profile args today fs).2.1, mirror_paths_slashed c) ∧
    (∀ c ∈ (restore profile args today answer fs).2.1,
      mirror_paths_slashed c) :=
  ⟨backup_trace_slashed profile args today fs,
   restore_trace_slashed profile args today answer fs⟩

/-! ### Retention count one (C9) -/

/-- C9: with `retentionCount = 1` and exactly one prior snapshot whose
name is not today's, the Analyzer returns that snapshot as both the
clone source and the delete candidate; `backup` then executes the Delete
first, the Clone finds its source gone and is a no-op, and the new
snapshot is produced by the Mirror step alone — the executed trace is
exactly a Delete followed by a Mirror onto `use`. -/
theorem retention_one_rotation_no_clone (profile : BackupProfile)
    (args : Args) (today name : String) (fs : FS)
    (hmode : profile.mode = MODE_INCR)
    (hcount : profile.backupCount = 1)
    (hsim : args.simulate = false)
    (hpre : check_pre_conditions fs profile.source profile.target = none)
    (hlist : os_listdir fs profile.target = [⟨name, true⟩])
    (hmatch : matchesDatePattern name = true)
    (hne : name ≠ today) :
    ((analyse_backup_folder profile.target today
        (os_listdir fs profile.target) profile.backupCount).2.1 =
      some (pjoin profile.target name) ∧
     (analyse_backup_folder profile.target today
        (os_listdir fs profile.target) profile.backupCount).2.2 =
      some (pjoin profile.target name)) ∧
    (backup profile args today fs).2.1 =
      [Cmd.rm (pjoin profile.target name),
       Cmd.rsync (rsync_options profile args)
         (ensureSlash profile.source)
         (ensureSlash (pjoin profile.target today))] := by
  have hdedup : ([name] : List String).dedup = [name] := by
    rw [List.dedup_cons_of_not_mem (List.not_mem_nil name), List.dedup_nil]
  have hsnap : snapshotNames [⟨name, true⟩] = [name] := by
    simp [snapshotNames, hdedup, hmatch]
  have hne2 : ¬(pjoin profile.target name = pjoin profile.target today) :=
    fun h => hne (pjoin_inj.mp h)
  have hana : analyse_backup_folder profile.target today
      (os_listdir fs profile.target) profile.backupCount =
      (pjoin profile.target today, some (pjoin profile.target name),
       some (pjoin profile.target name)) := by
    rw [hlist, hcount]
    simp only [analyse_backup_folder, hsnap]
    split
    · rename_i hnil
      rw [List.reverse_eq_nil_iff] at hnil
      have hlen := congrArg List.length hnil
      rw [List.length_insertionSort] at hlen
      simp at hlen
    · rename_i hcons
      split
      · rename_i heq
        have hh : (List.insertionSort (fun a b : String => pyLe a b = true)
            [name]).reverse.head hcons = name := rfl
        rw [hh] at heq
        exact absurd heq hne2
      · split
        · rfl
        · rename_i hlen
          exact absurd (Nat.le_refl 1) hlen
  have hexists : path_exists fs (pjoin profile.target name) = true := by
    have hm : (⟨name, true⟩ : Entry) ∈ os_listdir fs profile.target := by
      rw [hlist]; exact List.mem_singleton.mpr rfl
    exact path_exists_of_listdir_mem hm
  constructor
  · rw [hana]
    exact ⟨rfl, rfl⟩
  · rw [backup_incr_unfold profile args today fs hmode hpre, hana]
    simp only [remove_incremental_backup, hexists, Bool.not_true,
      Bool.false_eq_true, if_false, execute_command, hsim]
    simp [copy_incremental_backup, FS.apply, path_exists_applyRm_self,
      sync_dirs_no_prompt, resolved_backup_target, hsim]

/-! ### Declined restore prompt (C10) -/

/-- C10: a non-simulated restore whose confirmation prompt is answered
"no" executes no external command at all and leaves the file-system
state exactly as it was (nothing mutates before the prompt on the
restore path). -/
theorem restore_declined_prompt_frame (profile : BackupProfile)
    (args : Args) (today : String) (fs : FS)
    (hsim : args.simulate = false) :
    (restore profile args today false fs).1 = fs ∧
    (restore profile args today false fs).2.1 = [] := by
  simp only [restore]
  split
  · exact ⟨rfl, rfl⟩
  · split
    · split
      · exact ⟨rfl, rfl⟩
      · rw [sync_dirs_declined _ _ _ _ _ hsim]
        exact ⟨rfl, rfl⟩
    · rw [sync_dirs_declined _ _ _ _ _ hsim]
      exact ⟨rfl, rfl⟩

/-! ### Batch error handling (C3)

In `main`, the per-profile `for` loop is wrapped by the single
`try/except` of the whole function: an exception raised while processing
one profile escapes the loop, is printed by the outer handler, and the
loop is not resumed — the remaining profiles of the batch never run. -/

def profileA : BackupProfile := ⟨"a", none, "/srcA", "/tgtA", MODE_SYNC, [], 3⟩

def profileB : BackupProfile := ⟨"b", none, "/srcB", "/tgtB", MODE_SYNC, [], 3⟩

/-- A per-profile action that fails on profile `"a"` (as `backup` does
when `/srcA` is missing) and succeeds on every other profile. -/
def failing_run : BackupProfile → Option BackupError :=
  fun p => if p.name = "a" then some (.sourceMissing "/srcA") else none

/-- C3 counterexample: in a two-profile batch where the first profile
fails, the second profile is a member of the batch yet is never
processed — the batch ends at the first error instead of continuing
with the next profile, refuting the claimed per-profile containment. -/
theorem batch_error_stops_remaining_profiles :
    profileB ∈ [profileA, profileB] ∧
    process_profiles failing_run [profileA, profileB] =
      ([profileA], some (.sourceMissing "/srcA")) ∧
    profileB ∉ (process_profiles failing_run [profileA, profileB]).1 := by
  refine ⟨by decide, by decide, by decide⟩

/-- C3 amended: a fatal error raised while processing one profile is
caught (and printed) at the single outer boundary of `main`, not at a
per-profile boundary: the profiles before the failing one have run, the
error of the failing profile is the one reported, and every profile
after it is skipped — the batch does not continue. -/
theorem batch_error_caught_at_outer_boundary
    (run : BackupProfile → Option BackupError)
    (ps₁ ps₂ : List BackupProfile) (p : BackupProfile) (e : BackupError)
    (h₁ : ∀ q ∈ ps₁, run q = none) (h₂ : run p = some e) :
    process_profiles run (ps₁ ++ p :: ps₂) = (ps₁ ++ [p], some e) := by
  induction ps₁ with
  | nil =>
    simp only [List.nil_append]
    unfold process_profiles
    rw [h₂]
  | cons q qs ih =>
    have hq : run q = none := h₁ q (List.mem_cons_self _ _)
    simp only [List.cons_append]
    unfold process_profiles
    rw [hq, ih (fun x hx => h₁ x (List.mem_cons_of_mem _ hx))]

/-! ### Witnesses: each hypothesis-bearing claim theorem applied at a
concrete input -/

/-- C1 witness at the three-snapshot scenario with retention count 3. -/
theorem analyzer_deletes_at_most_oldest_witness :
    ∃ n, ("/t/2000-03-12" : String) = pjoin "/t" n ∧
      n ∈ snapshotNames
        [⟨"2000-03-12", true⟩, ⟨"2010-03-12", true⟩, ⟨"2020-03-12", true⟩] ∧
      (∀ m ∈ snapshotNames
        [⟨"2000-03-12", true⟩, ⟨"2010-03-12", true⟩, ⟨"2020-03-12", true⟩],
        n ≤ m) ∧
      3 ≤ (snapshotNames
        [⟨"2000-03-12", true⟩, ⟨"2010-03-12", true⟩,
         ⟨"2020-03-12", true⟩]).length :=
  analyzer_deletes_at_most_oldest "/t" "2024-01-01"
    [⟨"2000-03-12", true⟩, ⟨"2010-03-12", true⟩, ⟨"2020-03-12", true⟩] 3
    (by decide) "/t/2000-03-12" (by decide)

/-- C2 witness: a same-day re-run over two snapshots clones nothing. -/
theorem analyzer_same_day_no_clone_witness :
    (analyse_backup_folder "/t" "2020-03-12"
      [⟨"2000-03-12", true⟩, ⟨"2020-03-12", true⟩] 3).2.1 = none :=
  analyzer_same_day_no_clone "/t" "2020-03-12"
    [⟨"2000-03-12", true⟩, ⟨"2020-03-12", true⟩] 3 (by decide)
    (fun x hx => (pyLe_iff x "2020-03-12").mp
      ((by decide : ∀ x ∈ snapshotNames
          [⟨"2000-03-12", true⟩, ⟨"2020-03-12", true⟩],
          pyLe x "2020-03-12" = true) x hx))

/-- C3 witness for the amended claim: the profiles before the failing
one run, the failure is reported, the profile after it is skipped. -/
theorem batch_error_caught_at_outer_boundary_witness :
    process_profiles failing_run [profileB, profileA, profileB] =
      ([profileB, profileA], some (.sourceMissing "/srcA")) :=
  batch_error_caught_at_outer_boundary failing_run [profileB] [profileB]
    profileA (.sourceMissing "/srcA") (by decide) (by decide)

/-- C4 witness: dry-run incremental backup over one prior snapshot
mirrors against that snapshot, executes nothing else, and leaves the
file system untouched. -/
theorem backup_resolved_mirror_target_witness :
    backup ⟨"p", none, "/s", "/t", MODE_INCR, [], 3⟩
        ⟨true, false, false, none⟩ "2024-01-01"
        ⟨[("/s", true), ("/s/f", false), ("/t", true),
          ("/t/2020-03-12", true)]⟩ =
      (⟨[("/s", true), ("/s/f", false), ("/t", true),
          ("/t/2020-03-12", true)]⟩,
       [Cmd.rsync (rsync_options ⟨"p", none, "/s", "/t", MODE_INCR, [], 3⟩
          ⟨true, false, false, none⟩)
         (ensureSlash "/s")
         (ensureSlash (resolved_backup_target true
           (analyse_backup_folder "/t" "2024-01-01"
             (os_listdir ⟨[("/s", true), ("/s/f", false), ("/t", true),
               ("/t/2020-03-12", true)]⟩ "/t") 3).1
           (analyse_backup_folder "/t" "2024-01-01"
             (os_listdir ⟨[("/s", true), ("/s/f", false), ("/t", true),
               ("/t/2020-03-12", true)]⟩ "/t") 3).2.1))],
       none) :=
  (backup_resolved_mirror_target ⟨"p", none, "/s", "/t", MODE_INCR, [], 3⟩
    ⟨true, false, false, none⟩ "2024-01-01"
    ⟨[("/s", true), ("/s/f", false), ("/t", true), ("/t/2020-03-12", true)]⟩
    (by decide) (by decide)).2 rfl

/-- C5 witness at the empty-source scenario: `backup` fails with the
source-empty precondition error before anything runs. -/
theorem backup_precondition_spec_witness :
    backup ⟨"p", none, "/s", "/t", MODE_SYNC, [], 3⟩
        ⟨false, false, false, none⟩ "2024-01-01"
        ⟨[("/s", true), ("/t", true)]⟩ =
      (⟨[("/s", true), ("/t", true)]⟩, [], some (.sourceEmpty "/s")) := by
  have h := backup_precondition_spec ⟨"p", none, "/s", "/t", MODE_SYNC, [], 3⟩
    ⟨false, false, false, none⟩ "2024-01-01" ⟨[("/s", true), ("/t", true)]⟩
  exact h.2.2.2.2 _ (h.2.1.mpr (by decide))

/-- C6 witness: a restore pinned to a date whose folder is absent fails
with the not-found error on the literally joined path, running nothing. -/
theorem restore_resolves_and_notfound_witness :
    restore ⟨"p", none, "/s", "/t", MODE_INCR, [], 3⟩
        ⟨false, false, false, some "2010-01-01"⟩ "2024-01-01" true
        ⟨[("/s", true), ("/t", true), ("/t/2020-03-12", true)]⟩ =
      (⟨[("/s", true), ("/t", true), ("/t/2020-03-12", true)]⟩, [],
       some (.notFound (pjoin "/t" "2010-01-01"))) :=
  (restore_resolves_and_notfound ⟨"p", none, "/s", "/t", MODE_INCR, [], 3⟩
    ⟨false, false, false, some "2010-01-01"⟩ "2024-01-01" true
    ⟨[("/s", true), ("/t", true), ("/t/2020-03-12", true)]⟩
    (by decide) (by decide) (pjoin "/t" "2010-01-01") rfl).2 (by decide)

/-- C7 witness: non-matching entries (wrong names, plain files) are
dropped — a lexically matching but non-calendar name like `9999-99-99`
is kept — and with no matching entry the Analyzer returns nulls. -/
theorem analyzer_ignores_non_snapshots_witness :
    (analyse_backup_folder "/t" "2024-01-01"
        ([⟨"junk", true⟩, ⟨"2020-03-12", false⟩, ⟨"9999-99-99", true⟩].filter
          (fun e => e.isDir && matchesDatePattern e.name)) 3 =
      analyse_backup_folder "/t" "2024-01-01"
        [⟨"junk", true⟩, ⟨"2020-03-12", false⟩, ⟨"9999-99-99", true⟩] 3) ∧
    analyse_backup_folder "/t" "2024-01-01"
        [⟨"junk", true⟩, ⟨"2020-03-12", false⟩] 3 =
      (pjoin "/t" "2024-01-01", none, none) :=
  ⟨(analyzer_ignores_non_snapshots "/t" "2024-01-01"
      [⟨"junk", true⟩, ⟨"2020-03-12", false⟩, ⟨"9999-99-99", true⟩] 3).1,
   (analyzer_ignores_non_snapshots "/t" "2024-01-01"
      [⟨"junk", true⟩, ⟨"2020-03-12", false⟩] 3).2 (by decide)⟩

/-- C8 witness: the Mirror command of a concrete backup run carries the
trailing separators. -/
theorem mirror_paths_trailing_separator_witness :
    mirror_paths_slashed
      (Cmd.rsync ["-avi", "--progress"] "/s/" "/t/2024-01-01/") :=
  (mirror_paths_trailing_separator
    ⟨"p", none, "/s", "/t", MODE_INCR, [], 1⟩ ⟨false, false, false, none⟩
    "2024-01-01" true
    ⟨[("/s", true), ("/s/f", false), ("/t", true),
      ("/t/2020-03-12", true)]⟩).1
    (Cmd.rsync ["-avi", "--progress"] "/s/" "/t/2024-01-01/") (by decide)

/-- C9 witness: retention count 1 over the single snapshot
`/t/2020-03-12` yields it as both clone source and delete candidate, and
the executed trace is exactly the Delete followed by the Mirror onto
today's folder. -/
theorem retention_one_rotation_no_clone_witness :
    ((analyse_backup_folder "/t" "2024-01-01"
        (os_listdir ⟨[("/s", true), ("/s/f", false), ("/t", true),
          ("/t/2020-03-12", true)]⟩ "/t") 1).2.1 =
      some (pjoin "/t" "2020-03-12") ∧
     (analyse_backup_folder "/t" "2024-01-01"
        (os_listdir ⟨[("/s", true), ("/s/f", false), ("/t", true),
          ("/t/2020-03-12", true)]⟩ "/t") 1).2.2 =
      some (pjoin "/t" "2020-03-12")) ∧
    (backup ⟨"p", none, "/s", "/t", MODE_INCR, [], 1⟩
        ⟨false, false, false, none⟩ "2024-01-01"
        ⟨[("/s", true), ("/s/f", false), ("/t", true),
          ("/t/2020-03-12", true)]⟩).2.1 =
      [Cmd.rm (pjoin "/t" "2020-03-12"),
       Cmd.rsync (rsync_options ⟨"p", none, "/s", "/t", MODE_INCR, [], 1⟩
          ⟨false, false, false, none⟩)
         (ensureSlash "/s") (ensureSlash (pjoin "/t" "2024-01-01"))] :=
  retention_one_rotation_no_clone ⟨"p", none, "/s", "/t", MODE_INCR, [], 1⟩
    ⟨false, false, false, none⟩ "2024-01-01" "2020-03-12"
    ⟨[("/s", true), ("/s/f", false), ("/t", true), ("/t/2020-03-12", true)]⟩
    (by decide) (by decide) (by decide) (by decide) (by decide) (by decide)
    (by decide)

/-- C10 witness: declining the prompt of a concrete non-simulated
restore runs nothing and changes nothing. -/
theorem restore_declined_prompt_frame_witness :
    (restore ⟨"p", none, "/s", "/t", MODE_INCR, [], 3⟩
        ⟨false, false, false, none⟩ "2024-01-01" false
        ⟨[("/s", true), ("/t", true), ("/t/2020-03-12", true)]⟩).1 =
      ⟨[("/s", true), ("/t", true), ("/t/2020-03-12", true)]⟩ ∧
    (restore ⟨"p", none, "/s", "/t", MODE_INCR, [], 3⟩
        ⟨false, false, false, none⟩ "2024-01-01" false
        ⟨[("/s", true), ("/t", true), ("/t/2020-03-12", true)]⟩).2.1 = [] :=
  restore_declined_prompt_frame ⟨"p", none, "/s", "/t", MODE_INCR, [], 3⟩
    ⟨false, false, false, none⟩ "2024-01-01"
    ⟨[("/s", true), ("/t", true), ("/t/2020-03-12", true)]⟩ rfl

end BackupTool
